import Mathlib

/-!
Verification of the risk-classification and redaction logic of the
dp-geoeditors-viewer repository.  The Python sources (`utils.py`,
`app.py`, `update_data.py`) are shallowly embedded below: pure Python
functions become Lean functions, pandas DataFrames become `List Row`,
Python `None`/NaN become `Option`, and Python `int()` truncation on
rationals is modelled by `truncInt`.
-/

namespace GeoEditors

/-- Risk level of a country, from `RISK_LEVELS` in `utils.py`. -/
inductive RiskLevel where
  | low
  | medium
  | high
  | not_published
deriving DecidableEq, Repr

/-- The `medium` entry of `COUNTRY_RISK_LEVELS` in `utils.py` (lines 45-66). -/
def mediumCountries : List String :=
  ["AF", "AZ", "BD", "DJ", "ET", "HN", "IQ", "KZ", "KW", "LA",
   "NI", "OM", "PK", "PS", "SD", "TJ", "AE", "UZ", "VE", "YE"]

/-- The `high` entry of `COUNTRY_RISK_LEVELS` in `utils.py` (lines 67-76). -/
def highCountries : List String :=
  ["BH", "BY", "EG", "ER", "RU", "SA", "TR", "TM"]

/-- The `not_published` entry of `COUNTRY_RISK_LEVELS` in `utils.py` (lines 77-87). -/
def notPublishedCountries : List String :=
  ["CN", "HK", "CU", "IR", "MO", "MM", "KP", "SY", "VN"]

/-- The confidence-interval radius attached to each risk level by
`RISK_LEVELS` in `utils.py`: 2.72 for low, 14.98 for medium, 29.96 for
high, `None` for not_published. -/
def riskCI : RiskLevel → Option ℚ
  | .low => some (272 / 100)
  | .medium => some (1498 / 100)
  | .high => some (2996 / 100)
  | .not_published => none

/-- The `can_show_edits` flag of `RISK_LEVELS` in `utils.py`. -/
def canShowEdits : RiskLevel → Bool
  | .low => true
  | .medium => false
  | .high => false
  | .not_published => false

/-- Function `get_risk_level` from `utils.py` (lines 128-137).  A Python argument of
`None` is `none`; a string `c` is `some c`.  The `for level, countries in
COUNTRY_RISK_LEVELS.items()` loop visits the dict in insertion order
(medium, high, not_published), which the if-chain mirrors. -/
def get_risk_level (country_code : Option String) : RiskLevel :=
  match country_code with
  | none => .not_published
  | some c =>
    if c = "--" then .not_published
    else if c ∈ mediumCountries then .medium
    else if c ∈ highCountries then .high
    else if c ∈ notPublishedCountries then .not_published
    else .low

/-- Python `int()` applied to a rational: truncation toward zero. -/
def truncInt (q : ℚ) : ℤ :=
  if q < 0 then ⌈q⌉ else ⌊q⌋

/-- The payload produced by `create_hover_text` in `app.py` (lines 88-104):
either the withheld text ("Data not published for safety reasons" after the
country name), or the country name with a numeric editor count and an
optional confidence-interval range. -/
inductive HoverText where
  | withheld (country : String)
  | published (country : String) (editors : ℤ) (ci : Option (ℤ × ℤ))
deriving DecidableEq, Repr

/-- Function `create_hover_text` from `app.py` (lines 88-104).  `editors = none`
models a NaN editors value (for which the published branch's `int(...)`
raises, modelled by the result `none`); the risk level is the row's
`risk_level` column.  The lower CI bound is `max(0, int(editors - ci))`
and the upper bound `int(editors + ci)`, with `int` truncating toward
zero. -/
def create_hover_text (country : String) (risk : RiskLevel) (editors : Option ℤ) :
    Option HoverText :=
  if risk = .not_published ∨ editors = some (-1) then
    some (.withheld country)
  else
    match editors with
    | none => none
    | some e =>
      match riskCI risk with
      | some ci =>
          some (.published country e
            (some (max 0 (truncInt ((e : ℚ) - ci)), truncInt ((e : ℚ) + ci))))
      | none => some (.published country e none)

/-- Hover payload of a single country-month point in the trends chart of
`app.py` (lines 327-382): either the withheld text or a numeric count with
the risk level's CI radius. -/
inductive TrendHover where
  | withheld
  | numeric (code : String) (editors : ℤ) (ci : Option ℚ)
deriving DecidableEq, Repr

/-- The per-row hover construction of `trends_view` in `app.py`
(lines 327-382): rows are split by the mask `editors != -1`; a row with
`editors == -1` gets the withheld text, every other row gets the numeric
hover `f"{country_code}: {int(editors):,} Â± {risk_info['ci']}"` where
`risk_info` comes from the country's `get_risk_level`. -/
def trends_hover (code : String) (editors : ℤ) : TrendHover :=
  if editors = -1 then .withheld
  else .numeric code editors (riskCI (get_risk_level (some code)))

/-- Table `LEGACY_UNPUBLISHED` from `utils.py` (lines 11-21): the pre-2024
unpublished countries as `(name, alpha-2 code)` pairs in dict insertion
order. -/
def LEGACY_UNPUBLISHED : List (String × String) :=
  [("Afghanistan", "AF"), ("Azerbaijan", "AZ"), ("Bahrain", "BH"),
   ("Bangladesh", "BD"), ("Belarus", "BY"), ("China", "CN"), ("Cuba", "CU"),
   ("Djibouti", "DJ"), ("Egypt", "EG"), ("Eritrea", "ER"), ("Ethiopia", "ET"),
   ("Honduras", "HN"), ("Iran", "IR"), ("Iraq", "IQ"), ("Kazakhstan", "KZ"),
   ("Kuwait", "KW"), ("Laos", "LA"), ("Myanmar", "MM"), ("Nicaragua", "NI"),
   ("North Korea", "KP"), ("Oman", "OM"), ("Pakistan", "PK"), ("Russia", "RU"),
   ("Rwanda", "RW"), ("Saudi Arabia", "SA"), ("Sudan", "SD"), ("Syria", "SY"),
   ("Thailand", "TH"), ("Turkey", "TR"), ("Turkmenistan", "TM"),
   ("United Arab Emirates", "AE"), ("Uzbekistan", "UZ"), ("Venezuela", "VE"),
   ("Vietnam", "VN"), ("Yemen", "YE")]

/-- Table `CURRENT_UNPUBLISHED` from `utils.py` (lines 24-28): the unpublished
countries from 2024-01 onwards. -/
def CURRENT_UNPUBLISHED : List (String × String) :=
  [("China", "CN"), ("Hong Kong", "HK"), ("Cuba", "CU"), ("Iran", "IR"),
   ("Macau", "MO"), ("Myanmar", "MM"), ("North Korea", "KP"), ("Syria", "SY"),
   ("Vietnam", "VN")]

/-- A month, as the `(year, month)` pair parsed by
`datetime.strptime(year_month, '%Y-%m')` in `update_data.py`. -/
abbrev YearMonth := ℕ × ℕ

/-- Comparison of two parsed months, as Python's `datetime <` (both dates
have day 1, so the order is lexicographic on year then month). -/
def ymLt (a b : YearMonth) : Bool :=
  decide (a.1 < b.1 ∨ (a.1 = b.1 ∧ a.2 < b.2))

/-- The cutoff date `datetime.strptime('2024-01', '%Y-%m')` of
`download_monthly_data` in `update_data.py` (line 105). -/
def cutoverMonth : YearMonth := (2024, 1)

/-- The withheld-country list chosen by `download_monthly_data` in
`update_data.py` (lines 104-107): `use_legacy = (current_date < cutoff_date)`. -/
def selectUnpublished (ym : YearMonth) : List (String × String) :=
  if ymLt ym cutoverMonth then LEGACY_UNPUBLISHED else CURRENT_UNPUBLISHED

/-- One row of the monthly TSV/DataFrame, with the columns of
`COLUMN_NAMES` in `utils.py` and the dtypes declared in
`download_monthly_data` (`count_eps`, `sum_eps` floats; the counts
integers). -/
structure Row where
  wiki_db : String
  project : String
  country : String
  country_code : String
  activity_level : String
  count_eps : ℚ
  sum_eps : ℚ
  count_release_thresh : ℤ
  editors : ℤ
  edits : ℤ
  month : String
deriving DecidableEq, Repr

/-- Pandas `Series.unique()` applied to a column: the distinct values in
first-occurrence order. -/
def uniques (l : List String) : List String :=
  l.foldl (fun acc x => if x ∈ acc then acc else acc ++ [x]) []

/-- Python `project.split('.')[0]`: the prefix of the string before its
first `'.'` (the whole string when it has no `'.'`). -/
def wikiDbOf (project : String) : String :=
  String.mk (project.toList.takeWhile fun c => c != '.')

/-- The synthetic row built by `add_unpublished_rows` in `update_data.py`
(lines 36-48) for one withheld country, project and activity level:
`editors = -1`, `edits = 0` and zeroed auxiliary counts. -/
def syntheticRow (country code project level month : String) : Row :=
  { wiki_db := wikiDbOf project
    project := project
    country := country
    country_code := code
    activity_level := level
    count_eps := 0
    sum_eps := 0
    count_release_thresh := 0
    editors := -1
    edits := 0
    month := month }

/-- The `new_rows` list built by `add_unpublished_rows` in `update_data.py`
(lines 26-48): one synthetic row for every withheld country, for every
distinct project and every distinct activity level of the existing data,
with no check that the combination is absent. -/
def unpublishedRows (df : List Row) (month : String) (use_legacy : Bool) :
    List Row :=
  (if use_legacy then LEGACY_UNPUBLISHED else CURRENT_UNPUBLISHED).flatMap
    fun ck =>
      (uniques (df.map (·.project))).flatMap fun p =>
        (uniques (df.map (·.activity_level))).map fun l =>
          syntheticRow ck.1 ck.2 p l month

/-- Function `add_unpublished_rows` from `update_data.py` (lines 23-54): the new
rows are appended after the existing DataFrame (`pd.concat([df,
unpublished_df])`). -/
def add_unpublished_rows (df : List Row) (month : String) (use_legacy : Bool) :
    List Row :=
  df ++ unpublishedRows df month use_legacy

/-- The fixed `min_editors = 1` of `map_view` in `app.py` (line 130). -/
def minEditors : ℤ := 1

/-- The three color stops passed to `branca.colormap.LinearColormap` by
`get_color` in `app.py` (line 142): dark purple, teal, yellow. -/
def colorStops : List String :=
  ["#440154", "#21918c", "#fde725"]

/-- Result of `get_color` in `app.py` (lines 133-143): either the fixed
dark-grey fill for withheld/NaN rows, or the color obtained by feeding a
normalized log-scale position into the three-stop linear colormap (the
colormap itself is the external `branca` library, so the result records
the stops and the position handed to it). -/
inductive MapColor where
  | grey
  | scale (stops : List String) (normalized : ℝ)

/-- Function `get_color` from `app.py` (lines 133-143).  `editors = none` models a
NaN value (`pd.isna`).  For other values the normalized position is
`(log10(editors) - log10(min_editors)) / (log10(max_editors) -
log10(min_editors))`. -/
noncomputable def get_color (max_editors : ℤ) (editors : Option ℤ) : MapColor :=
  match editors with
  | none => .grey
  | some e =>
    if e = -1 then .grey
    else
      .scale colorStops
        ((Real.logb 10 e - Real.logb 10 minEditors) /
          (Real.logb 10 max_editors - Real.logb 10 minEditors))

/-- Python `math.ceil(m / 100) * 100` on an integer `m`. -/
def roundUp100 (m : ℤ) : ℤ :=
  ⌈(m : ℚ) / 100⌉ * 100

/-- The editors column restricted to positive values, as in
`filtered_df[filtered_df['editors'] > 0]['editors']` (a NaN compares as
not greater than 0 and is dropped). -/
def positiveEditors (editors : List (Option ℤ)) : List ℤ :=
  (editors.filterMap id).filter fun e => decide (0 < e)

/-- Value `max_editors` of `map_view` in `app.py` (line 131): the largest
positive editor count of the request, rounded up to a multiple of 100
(`none` when the request has no positive count, where the Python
`math.ceil(NaN)` raises). -/
def map_max_editors (editors : List (Option ℤ)) : Option ℤ :=
  ((positiveEditors editors).max?).map roundUp100

/-- Lookup of an alpha-2 code in country reference data, modelling
`pycountry.countries.get(alpha_2=...)`: the pycountry database is an
external collaborator, embedded as an association list from alpha-2 to
alpha-3 codes. -/
def lookupA2 : List (String × String) → String → Option String
  | [], _ => none
  | (k, v) :: rest, a => if a = k then some v else lookupA2 rest a

/-- Function `alpha2_to_alpha3` from `utils.py` (lines 102-109).  A `None` argument
or the `'--'` sentinel short-circuit to `None`; otherwise the code is looked
up in the reference data, and the `AttributeError` raised by `.alpha_3` on a
failed lookup is caught and turned into `None`. -/
def alpha2_to_alpha3 (table : List (String × String)) (alpha2 : Option String) :
    Option String :=
  match alpha2 with
  | none => none
  | some a =>
    if a = "--" then none
    else
      match lookupA2 table a with
      | none => none
      | some a3 => some a3

end GeoEditors

namespace GeoEditors

/-- C2: `get_risk_level` is a total pure function of the country code:
`None` and the `'--'` sentinel map to `not_published` before any lookup;
the three static sets are pairwise disjoint; a code in one of them maps to
its level, and a code in none of them maps to `low`. -/
theorem c2_classify_membership :
    get_risk_level none = .not_published ∧
    get_risk_level (some "--") = .not_published ∧
    (∀ c ∈ mediumCountries, c ∉ highCountries ∧ c ∉ notPublishedCountries) ∧
    (∀ c ∈ highCountries, c ∉ mediumCountries ∧ c ∉ notPublishedCountries) ∧
    (∀ c : String,
      (c ∈ mediumCountries → get_risk_level (some c) = .medium) ∧
      (c ∈ highCountries → get_risk_level (some c) = .high) ∧
      (c ∈ notPublishedCountries → get_risk_level (some c) = .not_published) ∧
      (c ≠ "--" → c ∉ mediumCountries → c ∉ highCountries →
        c ∉ notPublishedCountries → get_risk_level (some c) = .low)) := by
  refine ⟨rfl, rfl, by decide, by decide, fun c => ⟨?_, ?_, ?_, ?_⟩⟩
  · intro hm
    have hs : c ≠ "--" := by rintro rfl; revert hm; decide
    simp [get_risk_level, hs, hm]
  · intro hh
    have hs : c ≠ "--" := by rintro rfl; revert hh; decide
    have hm : c ∉ mediumCountries := by
      intro hm
      have : ∀ x ∈ mediumCountries, x ∉ highCountries := by decide
      exact this c hm hh
    simp [get_risk_level, hs, hm, hh]
  · intro hn
    have hs : c ≠ "--" := by rintro rfl; revert hn; decide
    have hm : c ∉ mediumCountries := by
      intro hm
      have : ∀ x ∈ mediumCountries, x ∉ notPublishedCountries := by decide
      exact this c hm hn
    have hh : c ∉ highCountries := by
      intro hh
      have : ∀ x ∈ highCountries, x ∉ notPublishedCountries := by decide
      exact this c hh hn
    simp [get_risk_level, hs, hm, hh, hn]
  · intro hs hm hh hn
    simp [get_risk_level, hs, hm, hh, hn]

/-- Witness for C2 at concrete codes: "AF" is a medium-set member mapped to
`medium`, and "US" is in no set and mapped to `low`. -/
theorem c2_classify_membership_witness :
    get_risk_level (some "AF") = .medium ∧ get_risk_level (some "US") = .low := by
  refine ⟨(c2_classify_membership.2.2.2.2 "AF").1 (by decide),
    ((c2_classify_membership.2.2.2.2 "US").2.2.2 (by decide) (by decide)
      (by decide) (by decide))⟩

/-- C7 counterexample: the claim says any unknown or malformed country code
resolves to `not_published`, but the code "XX" is in none of the risk sets
and `get_risk_level` maps it to `low`, not `not_published`. -/
theorem c7_unknown_counterexample :
    get_risk_level (some "XX") = .low ∧
    get_risk_level (some "XX") ≠ .not_published := by
  constructor
  · rfl
  · intro h
    exact absurd h (by decide)

/-- C7 amended: `get_risk_level` is total (it always returns one of the four
levels and never raises); the unknown sentinel (`None` or `'--'`) resolves
to `not_published`, and any other code that is in none of the three risk
sets resolves to `low` (not `not_published`). -/
theorem c7_total_and_default :
    (∀ input : Option String,
      get_risk_level input = .low ∨ get_risk_level input = .medium ∨
      get_risk_level input = .high ∨ get_risk_level input = .not_published) ∧
    get_risk_level none = .not_published ∧
    get_risk_level (some "--") = .not_published ∧
    (∀ c : String, c ≠ "--" → c ∉ mediumCountries → c ∉ highCountries →
      c ∉ notPublishedCountries → get_risk_level (some c) = .low) := by
  refine ⟨?_, rfl, rfl, ?_⟩
  · intro input
    cases hr : get_risk_level input
    · exact Or.inl rfl
    · exact Or.inr (Or.inl rfl)
    · exact Or.inr (Or.inr (Or.inl rfl))
    · exact Or.inr (Or.inr (Or.inr rfl))
  · intro c hs hm hh hn
    simp [get_risk_level, hs, hm, hh, hn]

/-- Witness for C7 at a concrete malformed code: "ZZZ" is not the sentinel
and is in no risk set, so it resolves to `low`. -/
theorem c7_total_and_default_witness :
    get_risk_level (some "ZZZ") = .low :=
  c7_total_and_default.2.2.2 "ZZZ" (by decide) (by decide) (by decide) (by decide)

/-- C3: for every row with raw `editors == -1`, `create_hover_text` returns
the withheld payload, whatever the row's risk level is. -/
theorem c3_minus_one_withheld :
    ∀ (country : String) (risk : RiskLevel),
      create_hover_text country risk (some (-1)) = some (.withheld country) := by
  intro country risk
  simp [create_hover_text]

/-- C1 counterexample: "HK" is in the `not_published` risk set, yet the
trends-view hover (cited by the claim) for an "HK" row with raw editors 500
is a numeric payload, not the withheld one: `trends_view` splits rows only
on `editors != -1` and never consults the risk level for withholding. -/
theorem c1_trends_leak_counterexample :
    get_risk_level (some "HK") = .not_published ∧
    trends_hover "HK" 500 = .numeric "HK" 500 none ∧
    trends_hover "HK" 500 ≠ .withheld := by
  refine ⟨by decide, by decide, by decide⟩

/-- C1 amended: for every country code in the `not_published` risk set,
`get_risk_level` returns `not_published` and `create_hover_text` (the map
display formatter) produces only the withheld payload regardless of the raw
editors value; the trends hover, however, withholds only rows whose raw
editors value is -1, and produces a numeric payload (with CI `none`) for
any other editors value. -/
theorem c1_not_published_display (code : String)
    (hmem : code ∈ notPublishedCountries) :
    get_risk_level (some code) = .not_published ∧
    (∀ (country : String) (editors : Option ℤ),
      create_hover_text country (get_risk_level (some code)) editors =
        some (.withheld country)) ∧
    (∀ e : ℤ, e ≠ -1 → trends_hover code e = .numeric code e none) := by
  have hrisk : get_risk_level (some code) = .not_published := by
    have h : ∀ c ∈ notPublishedCountries, get_risk_level (some c) = .not_published := by
      decide
    exact h code hmem
  refine ⟨hrisk, ?_, ?_⟩
  · intro country editors
    rw [hrisk]
    simp [create_hover_text]
  · intro e he
    simp [trends_hover, he, hrisk, riskCI]

/-- Witness for C1 (amended) at code "CN" and editors 500. -/
theorem c1_not_published_display_witness :
    get_risk_level (some "CN") = .not_published ∧
    create_hover_text "China" (get_risk_level (some "CN")) (some 500) =
      some (.withheld "China") ∧
    trends_hover "CN" 500 = .numeric "CN" 500 none := by
  obtain ⟨h1, h2, h3⟩ := c1_not_published_display "CN" (by decide)
  exact ⟨h1, h2 "China" (some 500), h3 500 (by decide)⟩

/-- For a rational, clamping at zero after truncation toward zero agrees
with truncating after clamping at zero. -/
theorem truncInt_max_zero (q : ℚ) : max 0 (truncInt q) = truncInt (max 0 q) := by
  unfold truncInt
  by_cases h : q < 0
  · have hc : ⌈q⌉ ≤ 0 := Int.ceil_le.mpr (by exact_mod_cast h.le)
    have hmax : max (0 : ℚ) q = 0 := max_eq_left h.le
    rw [if_pos h, hmax]
    simp [max_eq_left hc]
  · push_neg at h
    have hf : 0 ≤ ⌊q⌋ := Int.floor_nonneg.mpr h
    have hmax : max (0 : ℚ) q = q := max_eq_right h
    rw [if_neg (not_lt.mpr h), hmax, if_neg (not_lt.mpr h), max_eq_right hf]

/-- C6: for every published row (risk level not `not_published`, editors not
-1) whose risk level has a non-null CI radius, `create_hover_text` shows the
range from `max(0, editors - radius)` to `editors + radius`, both bounds
truncated to integers with the lower bound clamped at zero. -/
theorem c6_ci_bounds (country : String) (risk : RiskLevel) (e : ℤ) (ci : ℚ)
    (hrisk : risk ≠ .not_published) (he : e ≠ -1) (hci : riskCI risk = some ci) :
    create_hover_text country risk (some e) =
      some (.published country e
        (some (truncInt (max 0 ((e : ℚ) - ci)), truncInt ((e : ℚ) + ci)))) := by
  have h1 : create_hover_text country risk (some e) =
      some (.published country e
        (some (max 0 (truncInt ((e : ℚ) - ci)), truncInt ((e : ℚ) + ci)))) := by
    unfold create_hover_text
    rw [if_neg (by simp [hrisk, he]), hci]
  rw [h1, truncInt_max_zero]

/-- Witness for C6: editors 1000 at medium risk (radius 14.98) displays the
range 985 to 1014, and editors 2 at low risk (radius 2.72) has its lower
bound clamped at 0. -/
theorem c6_ci_bounds_witness :
    create_hover_text "Canada" .medium (some 1000) =
      some (.published "Canada" 1000 (some (985, 1014))) ∧
    create_hover_text "France" .low (some 2) =
      some (.published "France" 2 (some (0, 4))) := by
  constructor
  · exact (c6_ci_bounds "Canada" .medium 1000 (1498 / 100) (by decide) (by decide)
      rfl).trans (by norm_num [truncInt])
  · exact (c6_ci_bounds "France" .low 2 (272 / 100) (by decide) (by decide)
      rfl).trans (by norm_num [truncInt])

/-- C5 counterexample: the claim puts 36 countries in the legacy
withheld-country list, but `LEGACY_UNPUBLISHED` has 35 entries. -/
theorem c5_legacy_size_counterexample :
    LEGACY_UNPUBLISHED.length = 35 ∧ LEGACY_UNPUBLISHED.length ≠ 36 := by
  constructor
  · rfl
  · decide

/-- C5 amended: the withheld-country list used during ingestion is selected
purely by the row's month relative to the 2024-01 cutover: strictly earlier
months use the legacy list (35 countries), months at or after the cutover
use the current list (9 countries). -/
theorem c5_cutover_selection (ym : YearMonth) :
    (ymLt ym cutoverMonth = true → selectUnpublished ym = LEGACY_UNPUBLISHED) ∧
    (ymLt ym cutoverMonth = false → selectUnpublished ym = CURRENT_UNPUBLISHED) ∧
    (1 ≤ ym.2 → (ymLt ym cutoverMonth = true ↔ ym.1 < 2024)) ∧
    LEGACY_UNPUBLISHED.length = 35 ∧ CURRENT_UNPUBLISHED.length = 9 := by
  refine ⟨?_, ?_, ?_, rfl, rfl⟩
  · intro h
    simp [selectUnpublished, h]
  · intro h
    simp [selectUnpublished, h]
  · intro hm
    unfold ymLt cutoverMonth
    constructor
    · intro h
      rcases of_decide_eq_true h with h' | ⟨h1, h2⟩
      · exact h'
      · omega
    · intro h
      exact decide_eq_true (Or.inl h)

/-- Witness for C5 at 2023-12 (before the cutover, legacy list) and 2024-01
(at the cutover, current list). -/
theorem c5_cutover_selection_witness :
    selectUnpublished (2023, 12) = LEGACY_UNPUBLISHED ∧
    selectUnpublished (2024, 1) = CURRENT_UNPUBLISHED :=
  ⟨(c5_cutover_selection (2023, 12)).1 (by decide),
   (c5_cutover_selection (2024, 1)).2.1 (by decide)⟩

/-- C9: the codes of `CURRENT_UNPUBLISHED` are exactly the `not_published`
risk set; every country in the list selected for a month at or after the
cutover is classified `not_published`; the legacy list, in contrast, holds
codes such as "TH" and "RW" that classify as `low`. -/
theorem c9_current_matches_not_published :
    (CURRENT_UNPUBLISHED.map Prod.snd).toFinset = notPublishedCountries.toFinset ∧
    (∀ p ∈ CURRENT_UNPUBLISHED, get_risk_level (some p.2) = .not_published) ∧
    (∀ ym : YearMonth, ymLt ym cutoverMonth = false →
      ∀ p ∈ selectUnpublished ym, get_risk_level (some p.2) = .not_published) ∧
    (("Thailand", "TH") ∈ LEGACY_UNPUBLISHED ∧ get_risk_level (some "TH") = .low) ∧
    (("Rwanda", "RW") ∈ LEGACY_UNPUBLISHED ∧ get_risk_level (some "RW") = .low) := by
  refine ⟨by decide, by decide, ?_, by decide, by decide⟩
  intro ym h p hp
  rw [selectUnpublished, if_neg (by simp [h])] at hp
  revert hp
  revert p
  decide

/-- Witness for C9: the pair for China in the list selected for 2024-03 is
classified `not_published`. -/
theorem c9_current_matches_not_published_witness :
    get_risk_level (some ("China", "CN").2) = .not_published :=
  c9_current_matches_not_published.2.2.1 (2024, 3) (by decide)
    ("China", "CN") (by decide)

/-- The dedup used to model `Series.unique()` yields a duplicate-free
list. -/
theorem uniques_nodup (l : List String) : (uniques l).Nodup := by
  suffices h : ∀ (l acc : List String), acc.Nodup →
      (l.foldl (fun acc x => if x ∈ acc then acc else acc ++ [x]) acc).Nodup by
    exact h l [] List.nodup_nil
  intro l
  induction l with
  | nil => intro acc h; exact h
  | cons x xs ih =>
    intro acc h
    simp only [List.foldl_cons]
    by_cases hx : x ∈ acc
    · rw [if_pos hx]; exact ih acc h
    · rw [if_neg hx]
      refine ih _ (List.nodup_append.mpr ⟨h, List.nodup_singleton x, ?_⟩)
      intro a ha hmem
      simp only [List.mem_singleton] at hmem
      exact hx (hmem ▸ ha)

/-- Builder `syntheticRow` is injective in all five string arguments. -/
theorem syntheticRow_inj {c₁ k₁ p₁ l₁ m₁ c₂ k₂ p₂ l₂ m₂ : String}
    (h : syntheticRow c₁ k₁ p₁ l₁ m₁ = syntheticRow c₂ k₂ p₂ l₂ m₂) :
    c₁ = c₂ ∧ k₁ = k₂ ∧ p₁ = p₂ ∧ l₁ = l₂ ∧ m₁ = m₂ := by
  simp only [syntheticRow, Row.mk.injEq] at h
  tauto

/-- Both withheld-country lists are duplicate-free. -/
theorem unpublished_list_nodup (b : Bool) :
    (if b then LEGACY_UNPUBLISHED else CURRENT_UNPUBLISHED).Nodup := by
  cases b <;> decide

/-- The synthetic-row block produced for a month contains no duplicate
row. -/
theorem unpublishedRows_nodup (df : List Row) (month : String) (b : Bool) :
    (unpublishedRows df month b).Nodup := by
  unfold unpublishedRows
  rw [List.nodup_flatMap]
  refine ⟨?_, ?_⟩
  · intro ck _
    rw [List.nodup_flatMap]
    refine ⟨?_, ?_⟩
    · intro p _
      refine List.Nodup.map ?_ (uniques_nodup _)
      intro a b hab
      exact (syntheticRow_inj hab).2.2.2.1
    · refine (uniques_nodup _).imp ?_
      intro p p' hne r hr hr'
      simp only [List.mem_map] at hr hr'
      obtain ⟨l, _, hl⟩ := hr
      obtain ⟨l', _, hl'⟩ := hr'
      exact hne ((syntheticRow_inj (hl.trans hl'.symm)).2.2.1)
  · refine (unpublished_list_nodup b).imp ?_
    intro ck ck' hne r hr hr'
    simp only [List.mem_flatMap, List.mem_map] at hr hr'
    obtain ⟨p, _, l, _, hl⟩ := hr
    obtain ⟨p', _, l', _, hl'⟩ := hr'
    obtain ⟨h1, h2, _⟩ := syntheticRow_inj (hl.trans hl'.symm)
    exact hne (Prod.ext h1 h2)

/-- Whichever withheld list is in force, the block appended by
`add_unpublished_rows` holds exactly one synthetic row per (withheld
country × distinct project × distinct activity level) combination, each
with `editors = -1`, `edits = 0` and zeroed auxiliary counts, with no
check against the organic rows. -/
theorem add_unpublished_rows_spec (df : List Row) (month : String) (b : Bool) :
    (∀ ck ∈ (if b then LEGACY_UNPUBLISHED else CURRENT_UNPUBLISHED),
      ∀ p ∈ uniques (df.map (·.project)),
        ∀ l ∈ uniques (df.map (·.activity_level)),
          ((add_unpublished_rows df month b).drop df.length).count
            (syntheticRow ck.1 ck.2 p l month) = 1) ∧
    (∀ r ∈ (add_unpublished_rows df month b).drop df.length,
      r.editors = -1 ∧ r.edits = 0 ∧ r.count_eps = 0 ∧ r.sum_eps = 0 ∧
        r.count_release_thresh = 0 ∧ r.month = month ∧
        ∃ ck ∈ (if b then LEGACY_UNPUBLISHED else CURRENT_UNPUBLISHED),
          r.country = ck.1 ∧ r.country_code = ck.2 ∧
            r.project ∈ uniques (df.map (·.project)) ∧
            r.activity_level ∈ uniques (df.map (·.activity_level))) := by
  have hdrop : (add_unpublished_rows df month b).drop df.length =
      unpublishedRows df month b := by
    unfold add_unpublished_rows
    exact List.drop_left df _
  rw [hdrop]
  refine ⟨?_, ?_⟩
  · intro ck hck p hp l hl
    refine List.count_eq_one_of_mem (unpublishedRows_nodup df month b) ?_
    unfold unpublishedRows
    rw [List.mem_flatMap]
    exact ⟨ck, hck, by
      rw [List.mem_flatMap]
      exact ⟨p, hp, List.mem_map.mpr ⟨l, hl, rfl⟩⟩⟩
  · intro r hr
    unfold unpublishedRows at hr
    simp only [List.mem_flatMap, List.mem_map] at hr
    obtain ⟨ck, hck, p, hp, l, hl, hrow⟩ := hr
    subst hrow
    exact ⟨rfl, rfl, rfl, rfl, rfl, rfl, ck, hck, rfl, rfl, hp, hl⟩

/-- C4 counterexample: ingesting the pre-cutover month 2023-12 — for which
`current_date < cutoff_date` holds, so the legacy withheld list is used —
on a DataFrame already holding an organic row for China / en.wikipedia /
"1 to 4" still appends a synthetic `editors = -1` row for that very
combination: `add_unpublished_rows` never checks whether a combination is
already present. -/
theorem c4_legacy_already_present_counterexample :
    ymLt (2023, 12) cutoverMonth = true ∧
    ("China", "CN") ∈ LEGACY_UNPUBLISHED ∧
    (Row.mk "en" "en.wikipedia" "China" "CN" "1 to 4" 1 1 5 5 12 "2023-12") ∈
      [Row.mk "en" "en.wikipedia" "China" "CN" "1 to 4" 1 1 5 5 12 "2023-12"] ∧
    syntheticRow "China" "CN" "en.wikipedia" "1 to 4" "2023-12" ∈
      add_unpublished_rows
        [Row.mk "en" "en.wikipedia" "China" "CN" "1 to 4" 1 1 5 5 12 "2023-12"]
        "2023-12" (ymLt (2023, 12) cutoverMonth) ∧
    (syntheticRow "China" "CN" "en.wikipedia" "1 to 4" "2023-12").editors = -1 := by
  refine ⟨by decide, by decide, by decide, by decide, by decide⟩

/-- C4 amended: ingesting a month strictly before the cutover (which
selects the legacy withheld list) produces exactly one synthetic row per
(legacy withheld country × project present that month × activity level
present that month) combination, appended after the organic rows, each
with `editors = -1`, `edits = 0` and zeroed auxiliary counts —
unconditionally, whether or not the combination already occurs in the
organic data. -/
theorem c4_pre_cutover_synthesis (df : List Row) (month : String)
    (ym : YearMonth) (hpre : ymLt ym cutoverMonth = true) :
    selectUnpublished ym = LEGACY_UNPUBLISHED ∧
    (∀ ck ∈ LEGACY_UNPUBLISHED,
      ∀ p ∈ uniques (df.map (·.project)),
        ∀ l ∈ uniques (df.map (·.activity_level)),
          ((add_unpublished_rows df month (ymLt ym cutoverMonth)).drop
              df.length).count (syntheticRow ck.1 ck.2 p l month) = 1) ∧
    (∀ r ∈ (add_unpublished_rows df month (ymLt ym cutoverMonth)).drop df.length,
      r.editors = -1 ∧ r.edits = 0 ∧ r.count_eps = 0 ∧ r.sum_eps = 0 ∧
        r.count_release_thresh = 0 ∧ r.month = month ∧
        ∃ ck ∈ LEGACY_UNPUBLISHED,
          r.country = ck.1 ∧ r.country_code = ck.2 ∧
            r.project ∈ uniques (df.map (·.project)) ∧
            r.activity_level ∈ uniques (df.map (·.activity_level))) := by
  rw [hpre]
  refine ⟨by simp [selectUnpublished, hpre], ?_, ?_⟩
  · exact (add_unpublished_rows_spec df month true).1
  · exact (add_unpublished_rows_spec df month true).2

/-- Witness for C4 (amended) at the pre-cutover month 2023-12 on a one-row
DataFrame: the ("China", "CN") × en.wikipedia × "1 to 4" combination gets
exactly one synthetic row. -/
theorem c4_pre_cutover_synthesis_witness :
    ((add_unpublished_rows
        [Row.mk "en" "en.wikipedia" "China" "CN" "1 to 4" 1 1 5 5 12 "2023-12"]
        "2023-12" (ymLt (2023, 12) cutoverMonth)).drop
      [Row.mk "en" "en.wikipedia" "China" "CN" "1 to 4" 1 1 5 5 12 "2023-12"].length).count
      (syntheticRow ("China", "CN").1 ("China", "CN").2 "en.wikipedia" "1 to 4"
        "2023-12") = 1 :=
  (c4_pre_cutover_synthesis
      [Row.mk "en" "en.wikipedia" "China" "CN" "1 to 4" 1 1 5 5 12 "2023-12"]
      "2023-12" (2023, 12) (by decide)).2.1 ("China", "CN") (by decide)
    "en.wikipedia" (by decide) "1 to 4" (by decide)

/-- C8: a row with editors -1 or NaN gets the fixed dark-grey color; a row
with a positive editors value gets a color of the logarithmic scale between
`min_editors = 1` and the per-request maximum through the three-stop
gradient; and the per-request maximum is the largest positive editor count
rounded up to the next multiple of 100. -/
theorem c8_color_mapping :
    (∀ maxE : ℤ,
      get_color maxE none = .grey ∧ get_color maxE (some (-1)) = .grey) ∧
    (∀ maxE e : ℤ, 0 < e →
      get_color maxE (some e) =
        .scale colorStops
          ((Real.logb 10 e - Real.logb 10 minEditors) /
            (Real.logb 10 maxE - Real.logb 10 minEditors))) ∧
    (∀ (editors : List (Option ℤ)) (m : ℤ),
      (positiveEditors editors).max? = some m →
        map_max_editors editors = some (roundUp100 m) ∧
          (100 : ℤ) ∣ roundUp100 m ∧ m ≤ roundUp100 m ∧ roundUp100 m < m + 100) := by
  refine ⟨fun maxE => ⟨rfl, rfl⟩, ?_, ?_⟩
  · intro maxE e he
    simp only [get_color]
    rw [if_neg (show ¬e = -1 by omega)]
  · intro editors m hm
    refine ⟨by unfold map_max_editors; rw [hm]; rfl, ?_, ?_, ?_⟩
    · exact Dvd.intro _ (mul_comm _ _)
    · have h := Int.le_ceil ((m : ℚ) / 100)
      have h2 : (m : ℚ) ≤ (⌈(m : ℚ) / 100⌉ : ℚ) * 100 := by
        rw [← div_le_iff₀ (by norm_num : (0 : ℚ) < 100)]
        exact h
      unfold roundUp100
      exact_mod_cast h2
    · have h := Int.ceil_lt_add_one ((m : ℚ) / 100)
      have h2 : (⌈(m : ℚ) / 100⌉ : ℚ) * 100 < (m : ℚ) + 100 := by
        have h3 : ((m : ℚ) / 100 + 1) * 100 = (m : ℚ) + 100 := by ring
        calc (⌈(m : ℚ) / 100⌉ : ℚ) * 100 < ((m : ℚ) / 100 + 1) * 100 := by
              exact mul_lt_mul_of_pos_right h (by norm_num)
          _ = (m : ℚ) + 100 := h3
      unfold roundUp100
      exact_mod_cast h2

/-- Witness for C8: a NaN row and a -1 row are grey; editors 5 at maximum
100 lands on the log scale with the three gradient stops; and the column
[5, -1, NaN, 20] yields the per-request maximum 100. -/
theorem c8_color_mapping_witness :
    get_color 100 none = .grey ∧
    get_color 100 (some (-1)) = .grey ∧
    get_color 100 (some 5) =
      .scale colorStops
        ((Real.logb 10 (5 : ℤ) - Real.logb 10 minEditors) /
          (Real.logb 10 (100 : ℤ) - Real.logb 10 minEditors)) ∧
    map_max_editors [some 5, some (-1), none, some 20] = some 100 := by
  refine ⟨(c8_color_mapping.1 100).1, (c8_color_mapping.1 100).2,
    c8_color_mapping.2.1 100 5 (by decide), ?_⟩
  have h := (c8_color_mapping.2.2 [some 5, some (-1), none, some 20] 20
    (by decide)).1
  have h100 : roundUp100 20 = 100 := by
    unfold roundUp100
    have hc : ⌈((20 : ℤ) : ℚ) / 100⌉ = 1 := by
      rw [Int.ceil_eq_iff]
      norm_num
    rw [hc]
    norm_num
  rw [h, h100]

/-- Every alpha-3 code found by `lookupA2` is a value of the reference
table. -/
theorem lookupA2_mem {table : List (String × String)} {a v : String}
    (h : lookupA2 table a = some v) : (a, v) ∈ table := by
  induction table with
  | nil => simp [lookupA2] at h
  | cons kv rest ih =>
    obtain ⟨k, w⟩ := kv
    by_cases hk : a = k
    · rw [lookupA2, if_pos hk] at h
      subst hk
      injection h with h
      subst h
      exact List.mem_cons_self _ _
    · rw [lookupA2, if_neg hk] at h
      exact List.mem_cons_of_mem _ (ih h)

/-- C10: `alpha2_to_alpha3` is total and never raises; provided every
alpha-3 code of the reference data has three letters, the function returns
either a three-letter code or `None`, and it returns `None` exactly when
the input is `None`, the sentinel `'--'`, or an alpha-2 code absent from
the reference data. -/
theorem c10_alpha3_total (table : List (String × String))
    (hwf : ∀ p ∈ table, p.2.length = 3) :
    alpha2_to_alpha3 table none = none ∧
    (∀ a : String,
      (alpha2_to_alpha3 table (some a) = none ↔
        a = "--" ∨ lookupA2 table a = none) ∧
      (∀ r : String, alpha2_to_alpha3 table (some a) = some r →
        r.length = 3)) := by
  refine ⟨rfl, fun a => ⟨?_, ?_⟩⟩
  · by_cases hs : a = "--"
    · simp [alpha2_to_alpha3, hs]
    · rw [alpha2_to_alpha3, if_neg hs]
      cases hl : lookupA2 table a with
      | none => simp [hs, hl]
      | some v => simp [hs, hl]
  · intro r hr
    by_cases hs : a = "--"
    · rw [alpha2_to_alpha3, if_pos hs] at hr
      exact absurd hr (by simp)
    · rw [alpha2_to_alpha3, if_neg hs] at hr
      cases hl : lookupA2 table a with
      | none => rw [hl] at hr; exact absurd hr (by simp)
      | some v =>
        rw [hl] at hr
        injection hr with hr
        subst hr
        exact hwf (a, v) (lookupA2_mem hl)

/-- Witness for C10 on a concrete two-entry reference table. -/
theorem c10_alpha3_total_witness :
    alpha2_to_alpha3 [("US", "USA"), ("GB", "GBR")] none = none ∧
    (alpha2_to_alpha3 [("US", "USA"), ("GB", "GBR")] (some "ZZ") = none ↔
      "ZZ" = "--" ∨ lookupA2 [("US", "USA"), ("GB", "GBR")] "ZZ" = none) ∧
    (∀ r : String,
      alpha2_to_alpha3 [("US", "USA"), ("GB", "GBR")] (some "US") = some r →
        r.length = 3) := by
  have h := c10_alpha3_total [("US", "USA"), ("GB", "GBR")] (by decide)
  exact ⟨h.1, (h.2 "ZZ").1, (h.2 "US").2⟩

end GeoEditors
